import Mathlib

/-!
Verification of the Snowflake data-access gateway of the jira-mcp-snowflake
repository (module `src/database.py`), against its natural-language
specification.  The Python code is shallowly embedded: dynamically typed
Python values become the inductive type `PyVal`, raised exceptions become
`Except PyErr`, awaited task outcomes and HTTP round-trips become explicit
oracle parameters, and the module-level configuration globals become a
`Config` record.  Mutation of the module-level caches is a side effect that
no claim depends on; cache reads are modelled as oracle functions.

`PyVal` is a mutual (rather than nested) inductive so that every function on
it is compiled by structural recursion and evaluates inside `decide`/`rfl`
proofs; `PyValues`/`PyFields` are isomorphic to `List PyVal` and
`List (String × PyVal)` via `ofList`/`toList`.
-/

set_option maxRecDepth 4096

namespace JiraSnow

/-- One exception class per `except` clause that the source distinguishes:
`except (ValueError, TypeError)` in `parse_snowflake_timestamp` must not catch
`OverflowError`, and the broad `except Exception` clauses catch everything. -/
inductive PyErr where
  | typeError
  | valueError
  | overflowError
  | attributeError
  | keyError
deriving Repr, DecidableEq

mutual

/-- Dynamically typed Python values as they occur in this module: `None`,
booleans, ints, strings, lists and string-keyed dicts (JSON payloads and row
data).  Dicts keep insertion order, as Python dicts do. -/
inductive PyVal where
  | none
  | bool (b : Bool)
  | int (n : Int)
  | str (s : String)
  | list (xs : PyValues)
  | dict (fs : PyFields)

/-- A list of Python values (isomorphic to `List PyVal`). -/
inductive PyValues where
  | nil
  | cons (hd : PyVal) (tl : PyValues)

/-- Ordered string-keyed fields of a Python dict. -/
inductive PyFields where
  | nil
  | cons (k : String) (v : PyVal) (tl : PyFields)

end

/-- A Python dict flattened to its field list (`row_dict` and friends). -/
abbrev RecDict := List (String × PyVal)

def PyValues.toList : PyValues → List PyVal
  | PyValues.nil => []
  | PyValues.cons x xs => x :: xs.toList

def PyValues.ofList : List PyVal → PyValues
  | [] => PyValues.nil
  | x :: xs => PyValues.cons x (PyValues.ofList xs)

def PyFields.toList : PyFields → RecDict
  | PyFields.nil => []
  | PyFields.cons k v fs => (k, v) :: fs.toList

def PyFields.ofList : RecDict → PyFields
  | [] => PyFields.nil
  | (k, v) :: fs => PyFields.cons k v (PyFields.ofList fs)

/-- Build a Python list value from a Lean list. -/
def pvList (xs : List PyVal) : PyVal := PyVal.list (PyValues.ofList xs)

/-- Build a Python dict value from an ordered field list. -/
def pvDict (fs : RecDict) : PyVal := PyVal.dict (PyFields.ofList fs)

/-- The single-quote character, written via its code point so that string
literals in this file stay free of quote characters. -/
def sqChar : Char := Char.ofNat 39

/-- The single-quote as a one-character string (its own literal in the source). -/
def sq : String := String.singleton sqChar

/-- The double-quote character. -/
def dqChar : Char := Char.ofNat 34

/-- The double-quote as a one-character string. -/
def dq : String := String.singleton dqChar

/-- Python truthiness (`if value:`): `None`/`False`/`0` and empty
strings/lists/dicts are falsy. -/
def pyTruthy : PyVal → Bool
  | PyVal.none => false
  | PyVal.bool b => b
  | PyVal.int n => n != 0
  | PyVal.str s => !(s == "")
  | PyVal.list PyValues.nil => false
  | PyVal.list (PyValues.cons _ _) => true
  | PyVal.dict PyFields.nil => false
  | PyVal.dict (PyFields.cons _ _ _) => true

/-- Truthiness of an `Optional[str]` (`if not token:`): `None` and the empty
string are falsy. -/
def strTruthy : Option String → Bool
  | Option.none => false
  | Option.some s => !(s == "")

/-- First-match lookup in an ordered field list (Python dict key lookup). -/
def rLook : RecDict → String → Option PyVal
  | [], _ => Option.none
  | (k0, v) :: rest, k => if k0 == k then Option.some v else rLook rest k

/-- `d.get(k)` on a dict already flattened to fields: missing keys give `None`. -/
def rGet (fields : RecDict) (k : String) : PyVal :=
  (rLook fields k).getD PyVal.none

/-- Dict write `d[k] = v`: overwrite in place, else append (insertion order). -/
def rSet (fields : RecDict) (k : String) (v : PyVal) : RecDict :=
  match fields with
  | [] => [(k, v)]
  | (k0, v0) :: rest => if k0 == k then (k0, v) :: rest else (k0, v0) :: rSet rest k v

/-- `len(v)`: sized values only; `len(None)` and `len(3)` raise `TypeError`. -/
def pyLen : PyVal → Except PyErr Nat
  | PyVal.str s => Except.ok s.length
  | PyVal.list xs => Except.ok xs.toList.length
  | PyVal.dict fs => Except.ok fs.toList.length
  | _ => Except.error PyErr.typeError

/-- Iterating a sized value: list elements, string characters (as length-one
strings), or dict keys.  Defined exactly on the values `pyLen` accepts. -/
def pyItems : PyVal → List PyVal
  | PyVal.list xs => xs.toList
  | PyVal.str s => s.data.map (fun c => PyVal.str (String.singleton c))
  | PyVal.dict fs => fs.toList.map (fun kv => PyVal.str kv.1)
  | _ => []

/-- Is the character one Python treats as whitespace (`str.split`, `strip`)? -/
def isPyWs (c : Char) : Bool :=
  c == ' ' || c == Char.ofNat 9 || c == Char.ofNat 10 || c == Char.ofNat 11 ||
  c == Char.ofNat 12 || c == Char.ofNat 13

/-- `s.strip()` (ASCII whitespace; Python also strips some Unicode spaces,
which never occur in this module's inputs). -/
def pyStrip (s : String) : String :=
  ((s.data.dropWhile isPyWs).reverse.dropWhile isPyWs).reverse.asString

/-- ASCII uppercase of one character (`str.upper`). -/
def asciiUpper (c : Char) : Char :=
  if c.isLower then Char.ofNat (c.toNat - 32) else c

/-- ASCII lowercase of one character (`str.lower`). -/
def asciiLower (c : Char) : Char :=
  if c.isUpper then Char.ofNat (c.toNat + 32) else c

/-- `s.upper()` for the ASCII strings this module compares. -/
def pyUpper (s : String) : String := (s.data.map asciiUpper).asString

/-- `s.lower()` for the ASCII strings this module compares. -/
def pyLower (s : String) : String := (s.data.map asciiLower).asString

/-- `s.startswith(p)`. -/
def pyStartsWith (s p : String) : Bool := p.data.isPrefixOf s.data

/-- Does the string contain the character? -/
def strContainsChar (s : String) (c : Char) : Bool := s.data.any (fun x => x == c)

/-- Does `text` contain `pat` as a contiguous substring (Python `in` on str)? -/
def listHasSublist (pat : List Char) : List Char → Bool
  | [] => pat.isEmpty
  | c :: rest => pat.isPrefixOf (c :: rest) || listHasSublist pat rest

/-- `sep.join(parts)`. -/
def joinSep (sep : String) : List String → String
  | [] => ""
  | [x] => x
  | x :: rest => x ++ sep ++ joinSep sep rest

/-- `s.split()` with no separator: split on whitespace runs, dropping empties. -/
def splitWsAux : List Char → List Char → List String
  | [], cur => if cur.isEmpty then [] else [cur.reverse.asString]
  | c :: rest, cur =>
      if isPyWs c then
        if cur.isEmpty then splitWsAux rest [] else cur.reverse.asString :: splitWsAux rest []
      else splitWsAux rest (c :: cur)

def pySplitWs (s : String) : List String := splitWsAux s.data []

/-- `s.replace(c, r)` for a one-character pattern `c`, as in
`value.replace(qu, qu ++ qu)` of `sanitize_sql_value`. -/
def replaceChar (s : String) (c : Char) (r : String) : String :=
  String.join (s.data.map (fun ch => if ch == c then r else String.singleton ch))

/-- `k in v` for a string key: dict key membership, list element membership,
substring test for strings; raises `TypeError` on non-containers. -/
def pyContains (v : PyVal) (k : String) : Except PyErr Bool :=
  match v with
  | PyVal.dict fs => Except.ok (rLook fs.toList k).isSome
  | PyVal.list xs => Except.ok (xs.toList.any (fun x => match x with
      | PyVal.str s => s == k
      | _ => false))
  | PyVal.str s => Except.ok (listHasSublist k.data s.data)
  | _ => Except.error PyErr.typeError

/-- `v[k]` for a string key: dict subscript; `KeyError` when absent,
`TypeError` on non-dicts (string/list subscripts take ints). -/
def pySubscript (v : PyVal) (k : String) : Except PyErr PyVal :=
  match v with
  | PyVal.dict fs =>
      match rLook fs.toList k with
      | Option.some x => Except.ok x
      | Option.none => Except.error PyErr.keyError
  | _ => Except.error PyErr.typeError

/-- `v.get(k, default)`: only dicts have `.get`; elsewhere `AttributeError`. -/
def pyGetDefault (v : PyVal) (k : String) (dflt : PyVal) : Except PyErr PyVal :=
  match v with
  | PyVal.dict fs => Except.ok ((rLook fs.toList k).getD dflt)
  | _ => Except.error PyErr.attributeError

/-- `all_data.extend(it)`: appends the items of a sized iterable to a list;
`TypeError` for a non-iterable argument, and only lists have `.extend`
(`AttributeError` on any other receiver). -/
def pyExtendVal (target : PyVal) (v : PyVal) : Except PyErr PyVal :=
  match target with
  | PyVal.list xs =>
      match v with
      | PyVal.list _ => Except.ok (pvList (xs.toList ++ pyItems v))
      | PyVal.str _ => Except.ok (pvList (xs.toList ++ pyItems v))
      | PyVal.dict _ => Except.ok (pvList (xs.toList ++ pyItems v))
      | _ => Except.error PyErr.typeError
  | _ => Except.error PyErr.attributeError

/-- `repr` of a Python string restricted to the printable-ASCII, no-backslash
payloads this module handles: single-quoted, switching to double quotes when
the payload contains a single quote but no double quote (CPython rule). -/
def pyReprStr (s : String) : String :=
  if strContainsChar s sqChar && !(strContainsChar s dqChar) then dq ++ s ++ dq
  else sq ++ s ++ sq

mutual

/-- `str(value)` for the value shapes this module passes through it. -/
def pyStr : PyVal → String
  | PyVal.none => "None"
  | PyVal.bool b => if b then "True" else "False"
  | PyVal.int n => toString n
  | PyVal.str s => s
  | PyVal.list xs => "[" ++ pyStrJoinComma xs ++ "]"
  | PyVal.dict fs => "\x7b" ++ pyStrJoinFields fs ++ "\x7d"

/-- comma-joined `repr` of list elements as used by `str` on a list. -/
def pyStrJoinComma : PyValues → String
  | PyValues.nil => ""
  | PyValues.cons x PyValues.nil => pyRepr x
  | PyValues.cons x rest => pyRepr x ++ ", " ++ pyStrJoinComma rest

/-- comma-joined `repr(k): repr(v)` pairs as used by `str` on a dict. -/
def pyStrJoinFields : PyFields → String
  | PyFields.nil => ""
  | PyFields.cons k v PyFields.nil => pyReprStr k ++ ": " ++ pyRepr v
  | PyFields.cons k v rest => pyReprStr k ++ ": " ++ pyRepr v ++ ", " ++ pyStrJoinFields rest

/-- `repr(value)`: like `str` except that strings are quoted. -/
def pyRepr : PyVal → String
  | PyVal.str s => pyReprStr s
  | PyVal.none => "None"
  | PyVal.bool b => if b then "True" else "False"
  | PyVal.int n => toString n
  | PyVal.list xs => "[" ++ pyStrJoinComma xs ++ "]"
  | PyVal.dict fs => "\x7b" ++ pyStrJoinFields fs ++ "\x7d"

end

/-- Whether the value is a `str` instance (`isinstance(value, str)`). -/
def isStr : PyVal → Bool
  | PyVal.str _ => true
  | _ => false

/-- `sanitize_sql_value` (database.py lines 255-261): non-strings are passed
through `str()` unchanged; strings get each single quote doubled
(`value.replace` with a one-character pattern, modelled per character). -/
def sanitize_sql_value (value : PyVal) : String :=
  match value with
  | PyVal.str s => replaceChar s sqChar (sq ++ sq)
  | v => pyStr v

example : sanitize_sql_value (PyVal.str ("a" ++ sq ++ "b")) = "a" ++ sq ++ sq ++ "b" := by
  decide
example : sanitize_sql_value (PyVal.int 7) = "7" := by decide
example : pyStr (pvList [PyVal.str ("a" ++ sq ++ "b")]) =
    "[" ++ dq ++ "a" ++ sq ++ "b" ++ dq ++ "]" := by decide

end JiraSnow

namespace JiraSnow

/-! ## Timestamps: `parse_snowflake_timestamp` (database.py lines 550-582)

The decoder feeds `float(...)`/`int(...)` parses into
`datetime.fromtimestamp(..., tz=timezone.utc)`, adds a minute offset as a
`timedelta`, and renders `isoformat()`.  Finite floats are modelled as exact
rationals; rounding a decimal literal to the nearest binary double is not
modelled, and every theorem below evaluates only at inputs whose
microsecond result is unaffected by that rounding (the decimal values in
play are several orders of magnitude away from a half-microsecond
boundary).  Values too large for a double overflow to `inf`, as in CPython
(the model places the overflow boundary at `2^1024`). -/

/-- Result of `float(...)`: a finite value `mant · 10^exp10` (exact decimal,
kept as integers so that proofs evaluate), a signed infinity, or NaN. -/
inductive PyFloat where
  | finite (mant : Int) (exp10 : Int)
  | inf
  | negInf
  | nan

/-- `10^k` as an integer (via `Nat.pow`, which the kernel evaluates fast). -/
def pow10 (k : Nat) : Int := Int.ofNat (Nat.pow 10 k)

/-- `2^k` as an integer (via `Nat.pow`). -/
def pow2 (k : Nat) : Int := Int.ofNat (Nat.pow 2 k)

/-- Is `m · 10^e ≥ bound` (for a positive `bound`)? -/
def scaledGe (m : Int) (e : Int) (bound : Int) : Bool :=
  if 0 ≤ e then bound ≤ m * pow10 e.toNat
  else bound * pow10 (-e).toNat ≤ m

/-- Digit run at the front of a character list. -/
def spanDigits (cs : List Char) : List Char × List Char :=
  (cs.takeWhile Char.isDigit, cs.dropWhile Char.isDigit)

/-- Numeric value of a digit run. -/
def digitsToNat (cs : List Char) : Nat :=
  cs.foldl (fun a c => a * 10 + (c.toNat - 48)) 0

/-- Unsigned decimal part of the `float(...)` grammar:
`digits [. digits] [(e|E) [sign] digits]`, needing at least one mantissa
digit (CPython also accepts underscores and Unicode digits, which never
occur in this module's inputs).  Returns mantissa and decimal exponent. -/
def parseUnsignedFloat (cs : List Char) : Option (Nat × Int) :=
  let (ip, rest1) := spanDigits cs
  let (fp, rest2) :=
    match rest1 with
    | '.' :: r => spanDigits r
    | _ => ([], rest1)
  if ip.isEmpty && fp.isEmpty then Option.none
  else
    let mant := digitsToNat (ip ++ fp)
    match rest2 with
    | [] => Option.some (mant, -(fp.length : Int))
    | e :: r3 =>
      if e == 'e' || e == 'E' then
        let (eneg, r4) :=
          match r3 with
          | '+' :: r => (false, r)
          | '-' :: r => (true, r)
          | _ => (false, r3)
        let (ed, r5) := spanDigits r4
        if ed.isEmpty || !r5.isEmpty then Option.none
        else
          let ev : Int := if eneg then -(digitsToNat ed : Int) else (digitsToNat ed : Int)
          Option.some (mant, ev - (fp.length : Int))
      else Option.none

/-- `float(s)`: strips whitespace, accepts a sign, the words
`inf`/`infinity`/`nan` case-insensitively, or a decimal literal; anything
else raises `ValueError`.  Finite values beyond the double range (the model
places the boundary at `2^1024`) become infinities, exactly the behavior
that lets `float` itself succeed while `fromtimestamp` later overflows. -/
def pyFloatOfString (s : String) : Except PyErr PyFloat :=
  let t := (pyStrip s).data
  let (neg, u) :=
    match t with
    | '+' :: r => (false, r)
    | '-' :: r => (true, r)
    | _ => (false, t)
  let lw := u.map asciiLower
  if lw == "inf".data || lw == "infinity".data then
    Except.ok (if neg then PyFloat.negInf else PyFloat.inf)
  else if lw == "nan".data then Except.ok PyFloat.nan
  else
    match parseUnsignedFloat u with
    | Option.none => Except.error PyErr.valueError
    | Option.some me =>
      if scaledGe (me.1 : Int) me.2 (pow2 1024) then
        Except.ok (if neg then PyFloat.negInf else PyFloat.inf)
      else
        Except.ok (PyFloat.finite (if neg then -(me.1 : Int) else (me.1 : Int)) me.2)

/-- `int(s)`: strip, optional sign, decimal digits; else `ValueError`
(underscore and Unicode-digit forms never occur in this module's inputs). -/
def pyIntOfString (s : String) : Except PyErr Int :=
  let t := (pyStrip s).data
  let (pos, u) :=
    match t with
    | '+' :: r => (true, r)
    | '-' :: r => (false, r)
    | _ => (true, t)
  if u.isEmpty || !(u.all Char.isDigit) then Except.error PyErr.valueError
  else Except.ok (if pos then (digitsToNat u : Int) else -(digitsToNat u : Int))

/-- Round `a / b` (for `b > 0`) to the nearest integer, ties to even
(CPython timestamp conversion). -/
def roundHalfEvenInt (a b : Int) : Int :=
  let q := a.ediv b
  let r := a.emod b
  if 2 * r < b then q
  else if b < 2 * r then q + 1
  else if q % 2 = 0 then q else q + 1

/-- The finite float `mant · 10^exp10` in microseconds, rounded half-even to
an integer (exact when the decimal has six or fewer sub-second digits). -/
def floatMicros (mant exp10 : Int) : Int :=
  if 0 ≤ exp10 + 6 then mant * pow10 (exp10 + 6).toNat
  else roundHalfEvenInt mant (pow10 (-(exp10 + 6)).toNat)

/-- Proleptic-Gregorian date of a day count from 1970-01-01
(year, month, day). -/
def civilFromDays (z0 : Int) : Int × Nat × Nat :=
  let z := z0 + 719468
  let era := z.ediv 146097
  let doe := (z - era * 146097).toNat
  let yoe := (doe - doe / 1460 + doe / 36524 - doe / 146096) / 365
  let y := (yoe : Int) + era * 400
  let doy := doe - (365 * yoe + yoe / 4 - yoe / 100)
  let mp := (5 * doy + 2) / 153
  let d := doy - (153 * mp + 2) / 5 + 1
  let m := if mp < 10 then mp + 3 else mp - 9
  (if m ≤ 2 then y + 1 else y, m, d)

/-- Is the instant (in microseconds from the epoch) within `datetime`'s
representable years 1..9999? -/
def dtInRange (t : Int) : Bool :=
  let c := civilFromDays (t.ediv 86400000000)
  1 ≤ c.1 && c.1 ≤ 9999

/-- `datetime.fromtimestamp(x, tz=timezone.utc)` as an instant in
microseconds: NaN gives `ValueError` (caught by the decoder), infinities
give `OverflowError` (not caught), out-of-range years give `ValueError`. -/
def datetimeFromTimestampUtc (f : PyFloat) : Except PyErr Int :=
  match f with
  | PyFloat.nan => Except.error PyErr.valueError
  | PyFloat.inf => Except.error PyErr.overflowError
  | PyFloat.negInf => Except.error PyErr.overflowError
  | PyFloat.finite mant exp10 =>
    let t := floatMicros mant exp10
    if dtInRange t then Except.ok t else Except.error PyErr.valueError

/-- `timedelta(minutes=o)` as microseconds; the normalized day count must
fit `timedelta`'s bound, else `OverflowError` (not caught). -/
def pyTimedeltaMinutesMicros (o : Int) : Except PyErr Int :=
  let days := (o * 60).ediv 86400
  if days < -999999999 || 999999999 < days then Except.error PyErr.overflowError
  else Except.ok (o * 60 * 1000000)

/-- `dt + timedelta`: `OverflowError` when the result leaves the
representable range (not caught by the decoder). -/
def dtAddMicros (t delta : Int) : Except PyErr Int :=
  let r := t + delta
  if dtInRange r then Except.ok r else Except.error PyErr.overflowError

/-- Zero-padded decimal rendering. -/
def padNum (w n : Nat) : String :=
  let s := toString n
  (List.replicate (w - s.length) (Char.ofNat 48)).asString ++ s

/-- `datetime.isoformat()` of a UTC-aware instant: microseconds are omitted
when zero, and the UTC offset renders as `+00:00`. -/
def isoFromMicros (t : Int) : String :=
  let days := t.ediv 86400000000
  let rem := (t.emod 86400000000).toNat
  let c := civilFromDays days
  let us := rem % 1000000
  let secondsOfDay := rem / 1000000
  let h := secondsOfDay / 3600
  let mi := secondsOfDay % 3600 / 60
  let s2 := secondsOfDay % 60
  padNum 4 c.1.toNat ++ "-" ++ padNum 2 c.2.1 ++ "-" ++ padNum 2 c.2.2 ++ "T" ++
    padNum 2 h ++ ":" ++ padNum 2 mi ++ ":" ++ padNum 2 s2 ++
    (if us == 0 then "" else "." ++ padNum 6 us) ++ "+00:00"

/-- The `try` body of `parse_snowflake_timestamp`: split on whitespace; with
two or more parts, read a minute offset and an epoch float and add the
offset; otherwise parse the whole string as an epoch float. -/
def parse_ts_body (timestamp_str : String) : Except PyErr String := do
  let parts := pySplitWs (pyStrip timestamp_str)
  if 2 ≤ parts.length then do
    let timestamp_part := parts.getD 0 ""
    let timezone_offset_minutes ← pyIntOfString (parts.getD 1 "")
    let timestamp_float ← pyFloatOfString timestamp_part
    let dt ← datetimeFromTimestampUtc timestamp_float
    let offset_timedelta ← pyTimedeltaMinutesMicros timezone_offset_minutes
    let dt_with_offset ← dtAddMicros dt offset_timedelta
    pure (isoFromMicros dt_with_offset)
  else do
    let timestamp_float ← pyFloatOfString timestamp_str
    let dt ← datetimeFromTimestampUtc timestamp_float
    pure (isoFromMicros dt)

/-- `parse_snowflake_timestamp` (lines 550-582): empty input is returned
as-is by the leading guard; the body runs under
`except (ValueError, TypeError)`, which returns the input unchanged — any
other exception (notably `OverflowError`) propagates to the caller. -/
def parse_snowflake_timestamp (timestamp_str : String) : Except PyErr String :=
  if timestamp_str == "" then Except.ok timestamp_str
  else
    match parse_ts_body timestamp_str with
    | Except.ok r => Except.ok r
    | Except.error PyErr.valueError => Except.ok timestamp_str
    | Except.error PyErr.typeError => Except.ok timestamp_str
    | Except.error e => Except.error e

example : civilFromDays 0 = (1970, 1, 1) := by decide
example : civilFromDays 20298 = (2025, 7, 29) := by decide
example : parse_snowflake_timestamp "not a timestamp" = Except.ok "not a timestamp" := by rfl
example : parse_snowflake_timestamp "inf" = Except.error PyErr.overflowError := by rfl

end JiraSnow

namespace JiraSnow

/-! ## Transport layer and query executor (database.py lines 264-547)

`make_snowflake_request` and `execute_snowflake_query_api` are embedded with
an explicit `Transport` oracle standing for the one HTTP round-trip inside
the request's `try` block, and read-only oracles for the two TTL caches.
Writes to the caches and all logging are side effects no claim depends on. -/

/-- The module-level configuration globals the gateway reads. -/
structure Config where
  snowflakeToken : Option String
  database : String
  schema : String
  warehouse : String
  connectionMethod : String

/-- Outcome of the HTTP round-trip inside `make_snowflake_request`'s `try`
block: a parsed JSON body, or one of the three failure modes the source
catches (`raise_for_status`, `json.JSONDecodeError`, anything else). -/
inductive HttpOutcome where
  | ok (body : PyVal)
  | httpStatusError
  | jsonDecodeError
  | networkError

/-- A backend: endpoint, method and request body to round-trip outcome. -/
def Transport := String → String → Option PyVal → HttpOutcome

/-- Did the round-trip fail (non-2xx, malformed JSON, or a network error)? -/
def HttpOutcome.isFailure : HttpOutcome → Bool
  | HttpOutcome.ok _ => false
  | _ => true

/-- `get_cache_key` (lines 210-216): the operation name and the non-None
`k:v` parameter pairs, colon-joined; callers below pass the pairs already in
Python's sorted key order. -/
def get_cache_key (operation : String) (kwargs : List (String × String)) : String :=
  joinSep ":" (operation :: kwargs.map (fun kv => kv.1 ++ ":" ++ kv.2))

/-- `make_snowflake_request` (lines 264-330): fall back from the override
token to the configured one, refuse to call without a token, consult the
GET cache, then round-trip; every failure mode returns `None`. -/
def make_snowflake_request (T : Transport) (cfg : Config)
    (apiCache : String → Option PyVal)
    (endpoint method : String) (data : Option PyVal)
    (snowflake_token : Option String) (use_cache : Bool) : Option PyVal :=
  let token := if strTruthy snowflake_token then snowflake_token else cfg.snowflakeToken
  if !(strTruthy token) then Option.none
  else
    let cache_key : Option String :=
      if use_cache && (pyUpper method == "GET") then
        Option.some (get_cache_key "api_request"
          [("data", pyStr (data.getD PyVal.none)), ("endpoint", endpoint)])
      else Option.none
    match cache_key.bind apiCache with
    | Option.some cached => Option.some cached
    | Option.none =>
      match T endpoint method data with
      | HttpOutcome.ok body => Option.some body
      | _ => Option.none

/-- The POST body of the statement submission (lines 461-468). -/
def queryPayload (cfg : Config) (sql : String) : PyVal :=
  pvDict [("statement", PyVal.str sql), ("timeout", PyVal.int 60),
          ("database", PyVal.str cfg.database), ("schema", PyVal.str cfg.schema),
          ("warehouse", PyVal.str cfg.warehouse)]

/-- The follow-up GET endpoint for one partition (line 498). -/
def partitionEndpoint (handle : PyVal) (i : Nat) : String :=
  "statements/" ++ pyStr handle ++ "?partition=" ++ toString i

/-- The partition fetch the loop issues: a GET through
`make_snowflake_request` with its default `use_cache=True`. -/
def partitionFetch (T : Transport) (cfg : Config) (apiCache : String → Option PyVal)
    (handle : PyVal) (snowflake_token : Option String) (i : Nat) : Option PyVal :=
  make_snowflake_request T cfg apiCache (partitionEndpoint handle i) "GET"
    Option.none snowflake_token true

/-- One iteration of the partition loop (lines 496-511): the inner `try`
around one follow-up GET; any exception only skips this partition, leaving
`all_data` as it was. -/
def partitionStep (fetch : Nat → Option PyVal) (all_data : PyVal)
    (partition_index : Nat) : PyVal :=
  let attempt : Except PyErr PyVal :=
    match fetch partition_index with
    | Option.none => Except.ok all_data
    | Option.some pr =>
      match (if pyTruthy pr then pyContains pr "data" else Except.ok false) with
      | Except.error e => Except.error e
      | Except.ok false => Except.ok all_data
      | Except.ok true =>
        match pySubscript pr "data" with
        | Except.error e => Except.error e
        | Except.ok partition_data =>
          match pyLen partition_data with
          | Except.error e => Except.error e
          | Except.ok _ => pyExtendVal all_data partition_data
  match attempt with
  | Except.ok v => v
  | Except.error _ => all_data

/-- The `try` body of `execute_snowflake_query_api` (lines 459-540), cache
stores dropped; an `Except.error` is an exception reaching the broad
`except` of lines 542-545. -/
def execute_api_body (T : Transport) (cfg : Config) (apiCache : String → Option PyVal)
    (sql : String) (snowflake_token : Option String) : Except PyErr PyVal :=
  match make_snowflake_request T cfg apiCache "statements" "POST"
      (Option.some (queryPayload cfg sql)) snowflake_token true with
  | Option.none => Except.ok (pvList [])
  | Option.some response =>
    match (if pyTruthy response then pyContains response "data" else Except.ok false) with
    | Except.error e => Except.error e
    | Except.ok true =>
      (match pySubscript response "data" with
       | Except.error e => Except.error e
       | Except.ok data =>
       match pyLen data with
       | Except.error e => Except.error e
       | Except.ok _ =>
       match pyGetDefault response "resultSetMetaData" (pvDict []) with
       | Except.error e => Except.error e
       | Except.ok metadata =>
       match pyGetDefault metadata "partitionInfo" (pvList []) with
       | Except.error e => Except.error e
       | Except.ok partition_info =>
       match pyLen partition_info with
       | Except.error e => Except.error e
       | Except.ok nPart =>
       if 1 < nPart then
         match pyGetDefault response "statementHandle" PyVal.none with
         | Except.error e => Except.error e
         | Except.ok statement_handle =>
           if pyTruthy statement_handle then
             Except.ok ((List.range' 1 (nPart - 1)).foldl
               (partitionStep (partitionFetch T cfg apiCache statement_handle snowflake_token))
               data)
           else Except.ok data
       else Except.ok data)
    | Except.ok false =>
      match (if pyTruthy response then pyContains response "resultSet" else Except.ok false) with
      | Except.error e => Except.error e
      | Except.ok true =>
        (match pySubscript response "resultSet" with
         | Except.error e => Except.error e
         | Except.ok result_set =>
         match pyContains result_set "data" with
         | Except.error e => Except.error e
         | Except.ok true =>
           (match pySubscript result_set "data" with
            | Except.error e => Except.error e
            | Except.ok rd =>
            match pyLen rd with
            | Except.error e => Except.error e
            | Except.ok _ => Except.ok rd)
         | Except.ok false => Except.ok (pvList []))
      | Except.ok false => Except.ok (pvList [])

/-- `execute_snowflake_query_api` (lines 440-547): cache consult for SELECT
statements, then the `try` body under its broad `except` returning `[]`;
the function is total — no exception escapes to the caller. -/
def execute_snowflake_query_api (T : Transport) (cfg : Config)
    (apiCache : String → Option PyVal) (sqlCache : String → Option PyVal)
    (sql : String) (snowflake_token : Option String) (use_cache : Bool) : PyVal :=
  let cache_key : Option String :=
    if use_cache && pyStartsWith (pyUpper (pyStrip sql)) "SELECT" then
      Option.some (get_cache_key "sql_query" [("sql", sql)])
    else Option.none
  match cache_key.bind sqlCache with
  | Option.some cached => cached
  | Option.none =>
    match execute_api_body T cfg apiCache sql snowflake_token with
    | Except.ok v => v
    | Except.error _ => pvList []

/-- Specification-side contribution of one partition fetch: its `data` rows
when the follow-up succeeded with a sized `data` field, nothing otherwise
(the skipped-partition behavior of spec §4.5 step 4). -/
def partitionContribution (resp : Option PyVal) : List PyVal :=
  match resp with
  | Option.none => []
  | Option.some pr =>
    match (if pyTruthy pr then pyContains pr "data" else Except.ok false) with
    | Except.ok true =>
      (match pySubscript pr "data" with
       | Except.ok pdata =>
         (match pyLen pdata with
          | Except.ok _ => pyItems pdata
          | Except.error _ => [])
       | Except.error _ => [])
    | _ => []

end JiraSnow

namespace JiraSnow

@[simp] theorem pyValuesToListOfList (l : List PyVal) :
    (PyValues.ofList l).toList = l := by
  induction l with
  | nil => rfl
  | cons x xs ih => simp [PyValues.ofList, PyValues.toList, ih]

@[simp] theorem pyFieldsToListOfList (l : RecDict) :
    (PyFields.ofList l).toList = l := by
  induction l with
  | nil => rfl
  | cons x xs ih => cases x; simp [PyFields.ofList, PyFields.toList, ih]

theorem partitionStep_eq_append (fetch : Nat → Option PyVal) (xs : List PyVal) (i : Nat) :
    partitionStep fetch (pvList xs) i = pvList (xs ++ partitionContribution (fetch i)) := by
  unfold partitionStep partitionContribution
  cases hf : fetch i with
  | none => simp
  | some pr =>
    cases hc : (if pyTruthy pr then pyContains pr "data" else Except.ok false) with
    | error e => simp [hc]
    | ok b =>
      cases b with
      | false => simp [hc]
      | true =>
        cases hs : pySubscript pr "data" with
        | error e => simp [hc, hs]
        | ok pdata =>
          cases hl : pyLen pdata with
          | error e => simp [hc, hs, hl]
          | ok n =>
            cases pdata with
            | none => simp [pyLen] at hl
            | bool b2 => simp [pyLen] at hl
            | int n2 => simp [pyLen] at hl
            | str s => simp [hc, hs, hl, pyExtendVal, pvList]
            | list ys => simp [hc, hs, hl, pyExtendVal, pvList]
            | dict fs2 => simp [hc, hs, hl, pyExtendVal, pvList]

theorem partitionLoop_eq_flatMap (fetch : Nat → Option PyVal) (l : List Nat) (xs : List PyVal) :
    l.foldl (partitionStep fetch) (pvList xs) =
      pvList (xs ++ l.flatMap (fun i => partitionContribution (fetch i))) := by
  induction l generalizing xs with
  | nil => simp
  | cons i rest ih =>
    simp only [List.foldl_cons, List.flatMap_cons]
    rw [partitionStep_eq_append, ih, List.append_assoc]

end JiraSnow

namespace JiraSnow

/-- An empty cache: every lookup misses. -/
def noCache : String → Option PyVal := fun _ => Option.none

/-- A helper fact: a dict with a bound key is truthy. -/
theorem pyTruthy_pvDict_of_rLook {fields : RecDict} {k : String} {v : PyVal}
    (hk : rLook fields k = Option.some v) : pyTruthy (pvDict fields) = true := by
  cases fields with
  | nil => simp [rLook] at hk
  | cons f rest => simp [pvDict, PyFields.ofList, pyTruthy]

/-- Claim C1: any transport failure of the statement submission (non-2xx
status, malformed JSON body, network error) is caught inside
`execute_snowflake_query_api` and surfaces as the empty row list, and a
backend answering `data: null` likewise yields the empty row list (the
`len(None)` `TypeError` is absorbed by the broad `except`), never an
exception — the embedded executor is total, so no error value can reach the
caller. -/
theorem transport_failures_yield_empty_rows :
    (∀ (T : Transport) (cfg : Config) (sql : String) (tok : Option String) (uc : Bool),
      (T "statements" "POST" (Option.some (queryPayload cfg sql))).isFailure = true →
      execute_snowflake_query_api T cfg noCache noCache sql tok uc = pvList [])
    ∧ execute_snowflake_query_api
        (fun _ _ _ => HttpOutcome.ok (pvDict [("data", PyVal.none)]))
        (Config.mk (Option.some "token") "JIRA_DB" "RHAI_MARTS" "WH" "api")
        noCache noCache "SELECT 1" Option.none true = pvList [] := by
  constructor
  · intro T cfg sql tok uc hfail
    unfold execute_snowflake_query_api
    have hbind : ∀ (o : Option String), o.bind noCache = Option.none := by
      intro o; cases o <;> simp [noCache]
    simp only [hbind]
    unfold execute_api_body make_snowflake_request
    have hmethod : (pyUpper "POST" == "GET") = false := by rfl
    cases htok : strTruthy (if strTruthy tok = true then tok else cfg.snowflakeToken) with
    | false => simp [htok]
    | true =>
      cases hT : T "statements" "POST" (Option.some (queryPayload cfg sql)) with
      | ok body => rw [hT] at hfail; simp [HttpOutcome.isFailure] at hfail
      | httpStatusError => simp [htok, hmethod, noCache, hT]
      | jsonDecodeError => simp [htok, hmethod, noCache, hT]
      | networkError => simp [htok, hmethod, noCache, hT]
  · rfl

/-- C1 witness: a concrete failing backend. -/
theorem transport_failures_yield_empty_rows_witness :
    execute_snowflake_query_api (fun _ _ _ => HttpOutcome.httpStatusError)
      (Config.mk (Option.some "token") "JIRA_DB" "RHAI_MARTS" "WH" "api")
      noCache noCache "SELECT 1 FROM T" Option.none true = pvList [] :=
  transport_failures_yield_empty_rows.1 (fun _ _ _ => HttpOutcome.httpStatusError)
    (Config.mk (Option.some "token") "JIRA_DB" "RHAI_MARTS" "WH" "api")
    "SELECT 1 FROM T" Option.none true rfl

end JiraSnow

namespace JiraSnow

/-- A backend that would happily return one row — used to show that with no
obtainable credential the request is never even issued. -/
def healthyBackend : Transport := fun _ _ _ =>
  HttpOutcome.ok (pvDict [("data", pvList [pvList [PyVal.int 1]])])

/-- A configuration with no configured token. -/
def cfgNoToken : Config := Config.mk Option.none "JIRA_DB" "RHAI_MARTS" "WH" "api"

/-- A configuration with a usable static token. -/
def cfgWithToken : Config := Config.mk (Option.some "token") "JIRA_DB" "RHAI_MARTS" "WH" "api"

/-- Counterexample to claim C5: with no override token and no configured
token, `execute_snowflake_query_api` returns the ordinary empty row list —
`make_snowflake_request` returns `None` (line 277) and the executor maps it
to `[]` (lines 475-477) — identical to the result of a successful query with
no rows, so no `AuthenticationError` (or any other explicit error value) is
surfaced to the caller; the name `AuthenticationError` does not even occur
in the source. -/
theorem missing_token_not_surfaced_as_error :
    execute_snowflake_query_api healthyBackend cfgNoToken noCache noCache
      "SELECT 1" Option.none true = pvList []
    ∧ make_snowflake_request healthyBackend cfgNoToken noCache "statements" "POST"
        (Option.some (queryPayload cfgNoToken "SELECT 1")) Option.none true = Option.none
    ∧ execute_snowflake_query_api healthyBackend cfgNoToken noCache noCache
        "SELECT 1" Option.none true =
      execute_snowflake_query_api (fun _ _ _ => HttpOutcome.ok (pvDict [("data", pvList [])]))
        cfgWithToken noCache noCache "SELECT 1" Option.none true := by
  refine ⟨rfl, rfl, rfl⟩

/-- Claim C5 as amended: when no credential is obtainable (override and
configured token both absent or empty), `make_snowflake_request` returns
`None` without issuing the request and `execute_snowflake_query_api`
surfaces this as the ordinary empty row list — not as an explicit error
value; only the logs distinguish it from a no-rows result. -/
theorem missing_token_swallowed_to_empty (T : Transport) (cfg : Config)
    (apiCache : String → Option PyVal) (sql : String) (tok : Option String) (uc : Bool)
    (hov : strTruthy tok = false) (hcfg : strTruthy cfg.snowflakeToken = false) :
    make_snowflake_request T cfg apiCache "statements" "POST"
      (Option.some (queryPayload cfg sql)) tok true = Option.none
    ∧ execute_snowflake_query_api T cfg apiCache noCache sql tok uc = pvList [] := by
  have hreq : make_snowflake_request T cfg apiCache "statements" "POST"
      (Option.some (queryPayload cfg sql)) tok true = Option.none := by
    unfold make_snowflake_request
    simp [hov, hcfg]
  refine ⟨hreq, ?_⟩
  unfold execute_snowflake_query_api
  have hbind : ∀ (o : Option String), o.bind noCache = Option.none := by
    intro o; cases o <;> simp [noCache]
  simp only [hbind]
  unfold execute_api_body
  rw [hreq]

/-- C5 amended witness: concrete no-credential request. -/
theorem missing_token_swallowed_to_empty_witness :
    strTruthy (Option.none : Option String) = false
    ∧ strTruthy cfgNoToken.snowflakeToken = false
    ∧ (make_snowflake_request healthyBackend cfgNoToken noCache "statements" "POST"
        (Option.some (queryPayload cfgNoToken "SELECT X FROM T")) Option.none true = Option.none
      ∧ execute_snowflake_query_api healthyBackend cfgNoToken noCache noCache
          "SELECT X FROM T" Option.none true = pvList []) :=
  ⟨rfl, rfl, missing_token_swallowed_to_empty healthyBackend cfgNoToken noCache
    "SELECT X FROM T" Option.none true rfl rfl⟩

end JiraSnow

namespace JiraSnow

/-- Claim C2: when the submission response carries `n > 1` partitions and a
truthy statement handle, the executor returns partition 0's rows followed by
the contributions of partitions `1 .. n-1` in partition-index order
(`List.range'` is the increasing index sequence `1, 2, ..., n-1`); a
partition whose follow-up fetch fails or lacks a `data` field contributes
nothing (`partitionContribution`), giving a partial result instead of an
error. -/
theorem partitioned_rows_concatenate_in_order
    (T : Transport) (cfg : Config) (sql : String) (tok : Option String) (uc : Bool)
    (fields mdFields : RecDict) (d0 ps : List PyVal) (h : String)
    (hT : T "statements" "POST" (Option.some (queryPayload cfg sql)) =
      HttpOutcome.ok (pvDict fields))
    (hdata : rLook fields "data" = Option.some (pvList d0))
    (hmd : rLook fields "resultSetMetaData" = Option.some (pvDict mdFields))
    (hpi : rLook mdFields "partitionInfo" = Option.some (pvList ps))
    (hhandle : rLook fields "statementHandle" = Option.some (PyVal.str h))
    (hh : (h == "") = false)
    (hn : 2 ≤ ps.length)
    (htok : strTruthy (if strTruthy tok then tok else cfg.snowflakeToken) = true) :
    execute_snowflake_query_api T cfg noCache noCache sql tok uc =
      pvList (d0 ++ (List.range' 1 (ps.length - 1)).flatMap
        (fun i => partitionContribution
          (partitionFetch T cfg noCache (PyVal.str h) tok i))) := by
  have hbind : ∀ (o : Option String), o.bind noCache = Option.none := by
    intro o; cases o <;> simp [noCache]
  have hmethod : (pyUpper "POST" == "GET") = false := by rfl
  have htruthy : pyTruthy (pvDict fields) = true := pyTruthy_pvDict_of_rLook hdata
  unfold execute_snowflake_query_api
  simp only [hbind]
  unfold execute_api_body make_snowflake_request
  rw [hT]
  have hlt : 1 < ps.length := Nat.lt_of_lt_of_le Nat.one_lt_two hn
  match fields, hdata, hmd, hhandle with
  | (k0, v0) :: rest, hdata, hmd, hhandle =>
  simp [htok, hmethod, noCache, pyContains, pySubscript, pyGetDefault, pyLen,
    hdata, hmd, hpi, hhandle, hh, hlt, pyTruthy, pvDict, pvList, PyFields.ofList,
    PyFields.toList]
  exact partitionLoop_eq_flatMap (partitionFetch T cfg noCache (PyVal.str h) tok)
    (List.range' 1 (ps.length - 1)) d0

end JiraSnow

namespace JiraSnow

/-- A backend answering the submission with three partitions and serving the
two follow-up partition GETs. -/
def threePartBackend : Transport := fun endpoint method _ =>
  if method == "POST" then
    HttpOutcome.ok (pvDict
      [("data", pvList [PyVal.str "r0"]),
       ("resultSetMetaData", pvDict
         [("partitionInfo", pvList [pvDict [("rowCount", PyVal.int 1)],
            pvDict [("rowCount", PyVal.int 1)], pvDict [("rowCount", PyVal.int 1)]])]),
       ("statementHandle", PyVal.str "h1")])
  else if endpoint == "statements/h1?partition=1" then
    HttpOutcome.ok (pvDict [("data", pvList [PyVal.str "r1"])])
  else if endpoint == "statements/h1?partition=2" then
    HttpOutcome.ok (pvDict [("data", pvList [PyVal.str "r2"])])
  else HttpOutcome.networkError

/-- C2 witness: against the concrete 3-partition backend the executor
returns the rows of partitions 0, 1, 2 concatenated in partition order. -/
theorem partitioned_rows_concatenate_in_order_witness :
    execute_snowflake_query_api threePartBackend cfgWithToken noCache noCache
      "SELECT 1" Option.none true =
    pvList [PyVal.str "r0", PyVal.str "r1", PyVal.str "r2"] :=
  (partitioned_rows_concatenate_in_order threePartBackend cfgWithToken "SELECT 1"
      Option.none true
      [("data", pvList [PyVal.str "r0"]),
       ("resultSetMetaData", pvDict
         [("partitionInfo", pvList [pvDict [("rowCount", PyVal.int 1)],
            pvDict [("rowCount", PyVal.int 1)], pvDict [("rowCount", PyVal.int 1)]])]),
       ("statementHandle", PyVal.str "h1")]
      [("partitionInfo", pvList [pvDict [("rowCount", PyVal.int 1)],
         pvDict [("rowCount", PyVal.int 1)], pvDict [("rowCount", PyVal.int 1)]])]
      [PyVal.str "r0"]
      [pvDict [("rowCount", PyVal.int 1)], pvDict [("rowCount", PyVal.int 1)],
       pvDict [("rowCount", PyVal.int 1)]]
      "h1" rfl rfl rfl rfl rfl rfl (by decide) rfl).trans (by rfl)

end JiraSnow

namespace JiraSnow

/-! ## Enrichment sub-queries (database.py lines 666-942)

`get_issue_labels` / `get_issue_comments` / `get_issue_links` are embedded
with an oracle `execQ` standing for `execute_snowflake_query` (whose every
failure mode already collapses to an empty row list), a read-only cache
oracle, and — since no claim may depend on a query that was never sent — a
second result component listing the SQL statements the call issued. -/

/-- `sorted(strings)` (lexicographic by code point, as Python). -/
def charListLt : List Char → List Char → Bool
  | [], [] => false
  | [], _ :: _ => true
  | _ :: _, [] => false
  | a :: as2, b :: bs => if a == b then charListLt as2 bs else decide (a < b)

def strLtB (a b : String) : Bool := charListLt a.data b.data

def insertSorted (x : String) : List String → List String
  | [] => [x]
  | y :: ys => if strLtB x y then x :: y :: ys else y :: insertSorted x ys

def sortStrs (l : List String) : List String := l.foldr insertSorted []

/-- The sub-query cache keys: operation name over the sorted, comma-joined
id list (lines 672, 741, 870). -/
def get_cache_key_ids (operation : String) (issue_ids : List String) : String :=
  get_cache_key operation [("issue_ids", joinSep "," (sortStrs issue_ids))]

/-- `str(issue_id).isdigit()` for the string ids this layer receives: a
non-empty all-digit string.  (Python's `isdigit` also accepts Unicode digit
characters; ids here are decimal database keys.) -/
def pyStrIsdigit (s : String) : Bool := !(s == "") && s.data.all Char.isDigit

/-- The id-validation loop shared by the sub-queries (lines 683-687 etc.):
keep exactly the purely numeric ids, in order. -/
def sanitizeIds (issue_ids : List String) : List String :=
  issue_ids.filter pyStrIsdigit

/-- `ids_str`: single-quoted, comma-separated id list for the `IN` clause. -/
def idsStr (sanitized_ids : List String) : String :=
  sq ++ joinSep (sq ++ "," ++ sq) sanitized_ids ++ sq

/-- The labels SQL (lines 695-699). -/
def labelsSql (cfg : Config) (sanitized_ids : List String) : String :=
  "\n        SELECT ISSUE, LABEL\n        FROM " ++ cfg.database ++ "." ++ cfg.schema ++
  ".JIRA_LABEL_RHAI\n        WHERE ISSUE IN (" ++ idsStr sanitized_ids ++
  ") AND LABEL IS NOT NULL\n        "

/-- The comments SQL (lines 764-769). -/
def commentsSql (cfg : Config) (sanitized_ids : List String) : String :=
  "\n        SELECT ID, ISSUEID, ROLELEVEL, BODY, CREATED, UPDATED\n        FROM " ++
  cfg.database ++ "." ++ cfg.schema ++ ".JIRA_COMMENT_NON_PII\n        WHERE ISSUEID IN (" ++
  idsStr sanitized_ids ++ ") AND BODY IS NOT NULL\n        ORDER BY ISSUEID, CREATED ASC\n        "

/-- The links SQL (lines 893-915): a join over link, link-type and the two
issue endpoints, filtering on source or destination membership. -/
def linksSql (cfg : Config) (sanitized_ids : List String) : String :=
  let qual := cfg.database ++ "." ++ cfg.schema
  "\n        SELECT\n            il.ID as LINK_ID,\n            il.SOURCE,\n            il.DESTINATION,\n            il.SEQUENCE,\n            ilt.LINKNAME,\n            ilt.INWARD,\n            ilt.OUTWARD,\n            si.ISSUE_KEY as SOURCE_KEY,\n            di.ISSUE_KEY as DESTINATION_KEY,\n            si.SUMMARY as SOURCE_SUMMARY,\n            di.SUMMARY as DESTINATION_SUMMARY\n        FROM " ++
  qual ++ ".JIRA_ISSUELINK_RHAI il\n        JOIN " ++ qual ++
  ".JIRA_ISSUELINKTYPE_RHAI ilt\n            ON il.LINKTYPE = ilt.ID\n        LEFT JOIN " ++
  qual ++ ".JIRA_ISSUE_NON_PII si\n            ON il.SOURCE = si.ID\n        LEFT JOIN " ++
  qual ++ ".JIRA_ISSUE_NON_PII di\n            ON il.DESTINATION = di.ID\n        WHERE (il.SOURCE IN (" ++
  idsStr sanitized_ids ++ ") OR il.DESTINATION IN (" ++ idsStr sanitized_ids ++
  "))\n        ORDER BY il.SOURCE, il.SEQUENCE\n        "

/-- The fixed timestamp column set of `format_snowflake_row` (lines 592-595). -/
def timestampColumns : List String :=
  ["CREATED", "UPDATED", "DUEDATE", "RESOLUTIONDATE", "ARCHIVEDDATE", "_FIVETRAN_SYNCED"]

/-- The column loop of `format_snowflake_row` (lines 597-605): timestamp
columns with truthy values pass through the decoder (whose `OverflowError`
would propagate), everything else is copied. -/
def formatRowLoop : List (String × PyVal) → RecDict → Except PyErr RecDict
  | [], acc => Except.ok acc
  | (col, value) :: rest, acc =>
    if timestampColumns.contains (pyUpper col) && pyTruthy value then
      match parse_snowflake_timestamp (pyStr value) with
      | Except.error e => Except.error e
      | Except.ok ts => formatRowLoop rest (rSet acc col (PyVal.str ts))
    else formatRowLoop rest (rSet acc col value)

/-- `format_snowflake_row` (lines 585-607): `{}` on a length mismatch, else
the zipped column/value record. -/
def format_snowflake_row (row_data : PyVal) (columns : List String) :
    Except PyErr RecDict :=
  match pyLen row_data with
  | Except.error e => Except.error e
  | Except.ok n =>
    if n ≠ columns.length then Except.ok []
    else formatRowLoop (columns.zip (pyItems row_data)) []

/-- Run a row loop that mutates an accumulator under a broad `except`: an
exception aborts the loop and the accumulated value (the partially filled
dict the `except` clause leaves in place) is what the function returns. -/
def runAbsorb (f : β → α → Except PyErr β) : List α → β → β
  | [], acc => acc
  | x :: xs, acc =>
    match f acc x with
    | Except.ok acc2 => runAbsorb f xs acc2
    | Except.error _ => acc

/-- Append one value to a key's list, creating the key at the end on first
use (Python dict insertion-order semantics). -/
def dictAppend (m : List (String × List α)) (k : String) (v : α) :
    List (String × List α) :=
  match m with
  | [] => [(k, [v])]
  | (k0, vs) :: rest =>
    if k0 == k then (k0, vs ++ [v]) :: rest else (k0, vs) :: dictAppend rest k v

/-- Rows of the connector branch arrive as dicts; `.get` on anything else
raises. -/
def asRecDict : PyVal → Except PyErr RecDict
  | PyVal.dict fs => Except.ok fs.toList
  | _ => Except.error PyErr.attributeError

/-- `labels: {issue id → label values}`. -/
abbrev LabelsDict := List (String × List PyVal)

/-- `comments`/`links`: `{issue id → list of records}`. -/
abbrev RecsDict := List (String × List RecDict)

def labelsColumns : List String := ["ISSUE", "LABEL"]

/-- One API-branch row of the labels loop (lines 714-722). -/
def labelRowStepApi (acc : LabelsDict) (row : PyVal) : Except PyErr LabelsDict :=
  match format_snowflake_row row labelsColumns with
  | Except.error e => Except.error e
  | Except.ok row_dict =>
    let issue_id := pyStr (rGet row_dict "ISSUE")
    let label := rGet row_dict "LABEL"
    if !(issue_id == "") && pyTruthy label then Except.ok (dictAppend acc issue_id label)
    else Except.ok acc

/-- One connector-branch row of the labels loop (lines 704-710). -/
def labelRowStepConnector (acc : LabelsDict) (row : PyVal) : Except PyErr LabelsDict :=
  match asRecDict row with
  | Except.error e => Except.error e
  | Except.ok row_dict =>
    let issue_id := pyStr (rGet row_dict "ISSUE")
    let label := rGet row_dict "LABEL"
    if !(issue_id == "") && pyTruthy label then Except.ok (dictAppend acc issue_id label)
    else Except.ok acc

/-- `get_issue_labels` (lines 666-732).  Result: the labels dict, paired
with the list of SQL statements issued. -/
def get_issue_labels (cfg : Config) (execQ : String → Option String → Bool → List PyVal)
    (labelsCache : String → Option LabelsDict) (issue_ids : List String)
    (snowflake_token : Option String) (use_cache : Bool) : LabelsDict × List String :=
  if issue_ids.isEmpty then ([], [])
  else
    let cache_key := get_cache_key_ids "labels" issue_ids
    match (if use_cache then labelsCache cache_key else Option.none) with
    | Option.some cached => (cached, [])
    | Option.none =>
      let sanitized_ids := sanitizeIds issue_ids
      if sanitized_ids.isEmpty then ([], [])
      else
        let sql := labelsSql cfg sanitized_ids
        if pyLower cfg.connectionMethod == "connector" then
          (runAbsorb labelRowStepConnector (execQ sql Option.none use_cache) [], [sql])
        else
          (runAbsorb labelRowStepApi (execQ sql snowflake_token use_cache) [], [sql])

def commentsColumns : List String := ["ID", "ISSUEID", "ROLELEVEL", "BODY", "CREATED", "UPDATED"]

/-- The comment record built per row (lines 779-785 / 798-804). -/
def commentRecord (row_dict : RecDict) : RecDict :=
  [("id", rGet row_dict "ID"), ("role_level", rGet row_dict "ROLELEVEL"),
   ("body", rGet row_dict "BODY"), ("created", rGet row_dict "CREATED"),
   ("updated", rGet row_dict "UPDATED")]

/-- One API-branch row of the comments loop (lines 790-805). -/
def commentRowStepApi (acc : RecsDict) (row : PyVal) : Except PyErr RecsDict :=
  match format_snowflake_row row commentsColumns with
  | Except.error e => Except.error e
  | Except.ok row_dict =>
    let issue_id := pyStr (rGet row_dict "ISSUEID")
    if !(issue_id == "") then Except.ok (dictAppend acc issue_id (commentRecord row_dict))
    else Except.ok acc

/-- One connector-branch row of the comments loop (lines 774-786). -/
def commentRowStepConnector (acc : RecsDict) (row : PyVal) : Except PyErr RecsDict :=
  match asRecDict row with
  | Except.error e => Except.error e
  | Except.ok row_dict =>
    let issue_id := pyStr (rGet row_dict "ISSUEID")
    if !(issue_id == "") then Except.ok (dictAppend acc issue_id (commentRecord row_dict))
    else Except.ok acc

/-- `get_issue_comments` (lines 735-815), shaped like `get_issue_labels`. -/
def get_issue_comments (cfg : Config) (execQ : String → Option String → Bool → List PyVal)
    (commentsCache : String → Option RecsDict) (issue_ids : List String)
    (snowflake_token : Option String) (use_cache : Bool) : RecsDict × List String :=
  if issue_ids.isEmpty then ([], [])
  else
    let cache_key := get_cache_key_ids "comments" issue_ids
    match (if use_cache then commentsCache cache_key else Option.none) with
    | Option.some cached => (cached, [])
    | Option.none =>
      let sanitized_ids := sanitizeIds issue_ids
      if sanitized_ids.isEmpty then ([], [])
      else
        let sql := commentsSql cfg sanitized_ids
        if pyLower cfg.connectionMethod == "connector" then
          (runAbsorb commentRowStepConnector (execQ sql Option.none use_cache) [], [sql])
        else
          (runAbsorb commentRowStepApi (execQ sql snowflake_token use_cache) [], [sql])

end JiraSnow

namespace JiraSnow

def linksColumns : List String :=
  ["LINK_ID", "SOURCE", "DESTINATION", "SEQUENCE", "LINKNAME", "INWARD", "OUTWARD",
   "SOURCE_KEY", "DESTINATION_KEY", "SOURCE_SUMMARY", "DESTINATION_SUMMARY"]

/-- The base link object of `_process_links_rows` (lines 824-837). -/
def linkBase (row_dict : RecDict) : RecDict :=
  [("link_id", rGet row_dict "LINK_ID"),
   ("source_id", PyVal.str (pyStr (rGet row_dict "SOURCE"))),
   ("destination_id", PyVal.str (pyStr (rGet row_dict "DESTINATION"))),
   ("sequence", rGet row_dict "SEQUENCE"),
   ("link_type", rGet row_dict "LINKNAME"),
   ("inward_description", rGet row_dict "INWARD"),
   ("outward_description", rGet row_dict "OUTWARD"),
   ("source_key", rGet row_dict "SOURCE_KEY"),
   ("destination_key", rGet row_dict "DESTINATION_KEY"),
   ("source_summary", rGet row_dict "SOURCE_SUMMARY"),
   ("destination_summary", rGet row_dict "DESTINATION_SUMMARY")]

/-- The fields the source-side copy gains (lines 847-852): tagged `outward`,
pointing at the destination, described by the `OUTWARD` text. -/
def outwardEntry (row_dict : RecDict) : RecDict :=
  linkBase row_dict ++
  [("relationship", PyVal.str "outward"),
   ("related_issue_id", PyVal.str (pyStr (rGet row_dict "DESTINATION"))),
   ("related_issue_key", rGet row_dict "DESTINATION_KEY"),
   ("related_issue_summary", rGet row_dict "DESTINATION_SUMMARY"),
   ("relationship_description", rGet row_dict "OUTWARD")]

/-- The destination-side copy (lines 853-859): tagged `inward`, pointing at
the source, described by the `INWARD` text. -/
def inwardEntry (row_dict : RecDict) : RecDict :=
  linkBase row_dict ++
  [("relationship", PyVal.str "inward"),
   ("related_issue_id", PyVal.str (pyStr (rGet row_dict "SOURCE"))),
   ("related_issue_key", rGet row_dict "SOURCE_KEY"),
   ("related_issue_summary", rGet row_dict "SOURCE_SUMMARY"),
   ("relationship_description", rGet row_dict "INWARD")]

/-- The per-endpoint body of the `for issue_id in [source_id,
destination_id]` loop (lines 840-861): only ids inside `sanitized_ids` get
an entry; the branch on `issue_id == source_id` picks the tag. -/
def linkEndpointStep (row_dict : RecDict) (sanitized_ids : List String)
    (links_data : RecsDict) (issue_id : String) : RecsDict :=
  if sanitized_ids.contains issue_id then
    if issue_id == pyStr (rGet row_dict "SOURCE") then
      dictAppend links_data issue_id (outwardEntry row_dict)
    else
      dictAppend links_data issue_id (inwardEntry row_dict)
  else links_data

/-- One row of `_process_links_rows` (lines 820-861). -/
def processLinkRow (sanitized_ids : List String) (links_data : RecsDict)
    (row_dict : RecDict) : RecsDict :=
  let source_id := pyStr (rGet row_dict "SOURCE")
  let destination_id := pyStr (rGet row_dict "DESTINATION")
  linkEndpointStep row_dict sanitized_ids
    (linkEndpointStep row_dict sanitized_ids links_data source_id) destination_id

/-- `_process_links_rows` (lines 818-861) over already-dict rows. -/
def process_links_rows (rows : List RecDict) (sanitized_ids : List String)
    (links_data : RecsDict) : RecsDict :=
  rows.foldl (processLinkRow sanitized_ids) links_data

/-- `get_issue_links` (lines 864-942).  In the API branch the rows are
formatted first (lines 929-932); a formatting exception reaches the broad
`except` before any processing, so the accumulated dict is still empty.  In
the connector branch the dict rows are converted up front (`.get` on a
non-dict row raises; the model folds that into the same all-or-nothing
conversion). -/
def get_issue_links (cfg : Config) (execQ : String → Option String → Bool → List PyVal)
    (linksCache : String → Option RecsDict) (issue_ids : List String)
    (snowflake_token : Option String) (use_cache : Bool) : RecsDict × List String :=
  if issue_ids.isEmpty then ([], [])
  else
    let cache_key := get_cache_key_ids "links" issue_ids
    match (if use_cache then linksCache cache_key else Option.none) with
    | Option.some cached => (cached, [])
    | Option.none =>
      let sanitized_ids := sanitizeIds issue_ids
      if sanitized_ids.isEmpty then ([], [])
      else
        let sql := linksSql cfg sanitized_ids
        if pyLower cfg.connectionMethod == "connector" then
          match (execQ sql Option.none use_cache).mapM asRecDict with
          | Except.error _ => ([], [sql])
          | Except.ok rows => (process_links_rows rows sanitized_ids [], [sql])
        else
          match (execQ sql snowflake_token use_cache).mapM
              (fun row => format_snowflake_row row linksColumns) with
          | Except.error _ => ([], [sql])
          | Except.ok formatted_rows => (process_links_rows formatted_rows sanitized_ids [], [sql])

end JiraSnow

namespace JiraSnow

/-! ## Enrichment coordinator and batch dispatcher (lines 945-1024) -/

/-- `isinstance(result, Exception)` handling after
`asyncio.gather(..., return_exceptions=True)`: a raised branch contributes
an empty dict, a returned branch contributes its value (lines 966-975). -/
def exceptOrEmpty (o : Except PyErr (List α)) : List α :=
  match o with
  | Except.ok m => m
  | Except.error _ => []

/-- `get_issue_enrichment_data_concurrent` (lines 945-982): the three
sub-query tasks run under `asyncio.gather(..., return_exceptions=True)`;
their awaited outcomes are the three `Except` parameters (an `error` is a
branch that raised).  Empty input short-circuits (lines 951-952); the
function body runs under a broad `except` and is total — the caller never
sees an exception. -/
def get_issue_enrichment_data_concurrent
    (labelsOutcome : Except PyErr LabelsDict)
    (commentsOutcome : Except PyErr RecsDict)
    (linksOutcome : Except PyErr RecsDict)
    (issue_ids : List String) : LabelsDict × RecsDict × RecsDict :=
  if issue_ids.isEmpty then ([], [], [])
  else
    (exceptOrEmpty labelsOutcome, exceptOrEmpty commentsOutcome, exceptOrEmpty linksOutcome)

/-- A query slot after `asyncio.gather(..., return_exceptions=True)` in the
batch dispatcher (lines 1011-1016): the rows on success, `[]` for a raised
query. -/
def querySlot (execQ : String → Except PyErr (List PyVal)) (sql : String) : List PyVal :=
  match execQ sql with
  | Except.ok result => result
  | Except.error _ => []

/-- `range(0, stop, step)` (line 1000): a zero step raises `ValueError`, a
negative step gives the empty range here (start `0`, `stop ≥ 0`), a
positive step counts up by `step`. -/
def pyRangeZero (stop : Nat) (step : Int) : Except PyErr (List Nat) :=
  if step = 0 then Except.error PyErr.valueError
  else if step < 0 then Except.ok []
  else Except.ok (List.range' 0 ((stop + step.toNat - 1) / step.toNat) step.toNat)

/-- The batch loop (lines 1000-1021): per start index, slice
`queries[i : i + batch_size]`, execute the batch, and append one result per
query in batch order. -/
def batchesLoop (execQ : String → Except PyErr (List PyVal)) (queries : List String)
    (bs : Nat) : List Nat → List (List PyVal) → List (List PyVal)
  | [], acc => acc
  | i :: rest, acc =>
      batchesLoop execQ queries bs rest
        (acc ++ ((queries.drop i).take bs).map (querySlot execQ))

/-- `execute_queries_in_batches` (lines 985-1024), over an oracle for
`execute_snowflake_query`; an `Except.error` result is an exception escaping
the function (only the `range` call can raise — everything else is
absorbed per slot). -/
def execute_queries_in_batches (execQ : String → Except PyErr (List PyVal))
    (queries : List String) (batch_size : Int) : Except PyErr (List (List PyVal)) :=
  if queries.isEmpty then Except.ok []
  else
    match pyRangeZero queries.length batch_size with
    | Except.error e => Except.error e
    | Except.ok idxs => Except.ok (batchesLoop execQ queries batch_size.toNat idxs [])

theorem batchesLoop_range' (execQ : String → Except PyErr (List PyVal))
    (queries : List String) (bs : Nat) :
    ∀ (k i : Nat) (acc : List (List PyVal)),
      batchesLoop execQ queries bs (List.range' i k bs) acc =
        acc ++ ((queries.drop i).take (bs * k)).map (querySlot execQ) := by
  intro k
  induction k with
  | zero => intro i acc; simp [batchesLoop]
  | succ k ih =>
    intro i acc
    rw [List.range'_succ]
    rw [batchesLoop, ih]
    rw [Nat.mul_succ, Nat.add_comm (bs * k) bs, List.take_add, List.map_append,
      List.append_assoc]
    rw [List.drop_drop]

end JiraSnow

namespace JiraSnow

/-- Counterexample to claim C8: the claim quantifies over every batch size,
but with `batch_size = 0` and a non-empty query list the `range(0, n, 0)`
call raises `ValueError` (range step must not be zero), so the dispatcher
returns no per-query result list at all. -/
theorem batches_zero_batch_size_raises :
    execute_queries_in_batches (fun _ => Except.ok []) ["SELECT 1"] 0 =
      Except.error PyErr.valueError := by rfl

/-- Claim C8 as amended (to positive batch sizes): for every query list and
every batch size `≥ 1`, the dispatcher returns exactly one result per query
in the original query order, regardless of batch grouping; a query whose
execution raised contributes the empty list at its own index
(`querySlot`) without disturbing any other slot. -/
theorem queries_in_batches_preserve_order (execQ : String → Except PyErr (List PyVal))
    (queries : List String) (batch_size : Int) (hbs : 1 ≤ batch_size) :
    execute_queries_in_batches execQ queries batch_size =
      Except.ok (queries.map (querySlot execQ)) := by
  unfold execute_queries_in_batches
  cases hq : queries.isEmpty with
  | true =>
    have : queries = [] := List.isEmpty_iff.mp hq
    subst this; rfl
  | false =>
    simp only [Bool.false_eq_true, if_false]
    unfold pyRangeZero
    have h0 : ¬ (batch_size = 0) := by omega
    have hneg : ¬ (batch_size < 0) := by omega
    simp only [h0, hneg, if_false]
    have hbs1 : 1 ≤ batch_size.toNat := by omega
    rw [batchesLoop_range']
    have hcov : queries.length ≤ batch_size.toNat *
        ((queries.length + batch_size.toNat - 1) / batch_size.toNat) := by
      have h1 := Nat.div_add_mod (queries.length + batch_size.toNat - 1) batch_size.toNat
      have h2 := Nat.mod_lt (queries.length + batch_size.toNat - 1)
        (show 0 < batch_size.toNat by omega)
      omega
    rw [List.drop_zero, List.take_of_length_le hcov, List.nil_append]

/-- C8 witness: three queries in batches of two, the middle one raising. -/
theorem queries_in_batches_preserve_order_witness :
    (1 : Int) ≤ 2 ∧
    execute_queries_in_batches
      (fun q => if q == "q2" then Except.error PyErr.typeError else Except.ok [PyVal.str q])
      ["q1", "q2", "q3"] 2 =
      Except.ok [[PyVal.str "q1"], [], [PyVal.str "q3"]] :=
  ⟨by norm_num,
   (queries_in_batches_preserve_order
      (fun q => if q == "q2" then Except.error PyErr.typeError else Except.ok [PyVal.str q])
      ["q1", "q2", "q3"] 2 (by norm_num)).trans (by rfl)⟩

end JiraSnow

namespace JiraSnow

/-- Claim C4: for any non-empty id list and any combination of branch
outcomes, the enrichment result is exactly the per-branch
`exceptOrEmpty` triple — a branch that raised contributes the empty dict
while each other branch's returned dict is passed through unchanged; the
embedded coordinator is total, so the caller never sees an exception. -/
theorem enrichment_isolates_branch_failures
    (labelsOutcome : Except PyErr LabelsDict)
    (commentsOutcome linksOutcome : Except PyErr RecsDict)
    (issue_ids : List String) (hne : issue_ids ≠ []) :
    get_issue_enrichment_data_concurrent labelsOutcome commentsOutcome linksOutcome issue_ids =
      (exceptOrEmpty labelsOutcome, exceptOrEmpty commentsOutcome, exceptOrEmpty linksOutcome)
    ∧ (∀ e, labelsOutcome = Except.error e →
        (get_issue_enrichment_data_concurrent labelsOutcome commentsOutcome linksOutcome
          issue_ids).1 = [])
    ∧ (∀ m, commentsOutcome = Except.ok m →
        (get_issue_enrichment_data_concurrent labelsOutcome commentsOutcome linksOutcome
          issue_ids).2.1 = m) := by
  have hie : issue_ids.isEmpty = false := by
    cases issue_ids with
    | nil => exact absurd rfl hne
    | cons x xs => rfl
  refine ⟨?_, ?_, ?_⟩
  · unfold get_issue_enrichment_data_concurrent
    rw [hie]
    rfl
  · intro e he
    unfold get_issue_enrichment_data_concurrent
    rw [hie, he]
    rfl
  · intro m hm
    unfold get_issue_enrichment_data_concurrent
    rw [hie, hm]
    rfl

/-- C4 witness: the comments branch raises, the other two return data; the
failed branch yields the empty dict, the other two come through intact. -/
theorem enrichment_isolates_branch_failures_witness :
    (["123"] : List String) ≠ [] ∧
    get_issue_enrichment_data_concurrent
      (Except.ok [("123", [PyVal.str "bug"])])
      (Except.error PyErr.typeError)
      (Except.ok [("123", [[("link_id", PyVal.int 9)]])])
      ["123"] =
      ([("123", [PyVal.str "bug"])], [], [("123", [[("link_id", PyVal.int 9)]])]) :=
  ⟨by simp,
   ((enrichment_isolates_branch_failures
      (Except.ok [("123", [PyVal.str "bug"])])
      (Except.error PyErr.typeError)
      (Except.ok [("123", [[("link_id", PyVal.int 9)]])])
      ["123"] (by simp)).1).trans (by rfl)⟩

/-- Claim C3 (divergence evidence): at the failing input
`issue_ids = ["123"]`, the full output of
`get_issue_enrichment_data_concurrent` is a triple of exactly the three
maps — labels, comments, links — produced by its three sub-query branches.
`src/database.py` defines no status-changes sub-query, so no fourth map
exists in the result, while the claim (with the spec and the repository's
own tests) requires four. -/
theorem enrichment_output_is_three_maps :
    get_issue_enrichment_data_concurrent
      (Except.ok [("123", [PyVal.str "bug"])])
      (Except.ok [("123", [[("id", PyVal.int 1)]])])
      (Except.ok [("123", [[("link_id", PyVal.int 9)]])])
      ["123"] =
    ([("123", [PyVal.str "bug"])],
     [("123", [[("id", PyVal.int 1)]])],
     [("123", [[("link_id", PyVal.int 9)]])]) := by rfl

end JiraSnow

namespace JiraSnow

/-- An empty labels cache. -/
def noLabelsCache : String → Option LabelsDict := fun _ => Option.none

/-- An empty records cache (comments / links). -/
def noRecsCache : String → Option RecsDict := fun _ => Option.none

/-- Claim C6: each enrichment sub-query keeps exactly the purely numeric ids
(`sanitizeIds` discards every other id) before building its `IN (...)`
clause, so the one SQL statement each of them issues is its template over
the sanitized list only; and when the sanitized list is empty the function
returns the empty dict having issued no query at all (an empty `issue_ids`
input short-circuits even earlier, lines 668-669). -/
theorem subqueries_discard_nonnumeric_ids (cfg : Config)
    (execQ : String → Option String → Bool → List PyVal)
    (issue_ids : List String) (tok : Option String) :
    (∀ x ∈ sanitizeIds issue_ids, ¬(x = "") ∧ x.data.all Char.isDigit = true)
    ∧ (get_issue_labels cfg execQ noLabelsCache issue_ids tok true).2 =
        (if (sanitizeIds issue_ids).isEmpty then [] else [labelsSql cfg (sanitizeIds issue_ids)])
    ∧ (get_issue_comments cfg execQ noRecsCache issue_ids tok true).2 =
        (if (sanitizeIds issue_ids).isEmpty then [] else [commentsSql cfg (sanitizeIds issue_ids)])
    ∧ (get_issue_links cfg execQ noRecsCache issue_ids tok true).2 =
        (if (sanitizeIds issue_ids).isEmpty then [] else [linksSql cfg (sanitizeIds issue_ids)])
    ∧ ((sanitizeIds issue_ids).isEmpty = true →
        get_issue_labels cfg execQ noLabelsCache issue_ids tok true = ([], [])
        ∧ get_issue_comments cfg execQ noRecsCache issue_ids tok true = ([], [])
        ∧ get_issue_links cfg execQ noRecsCache issue_ids tok true = ([], [])) := by
  refine ⟨?_, ?_, ?_, ?_, ?_⟩
  · intro x hx
    have h1 := (List.mem_filter.mp hx).2
    unfold pyStrIsdigit at h1
    rw [Bool.and_eq_true] at h1
    refine ⟨?_, h1.2⟩
    intro hxe
    have h3 := h1.1
    rw [hxe] at h3
    simp at h3
  · unfold get_issue_labels
    cases hq : issue_ids.isEmpty with
    | true =>
      have : issue_ids = [] := List.isEmpty_iff.mp hq
      subst this
      simp [sanitizeIds]
    | false =>
      simp only [Bool.false_eq_true, if_false, noLabelsCache]
      cases hs : (sanitizeIds issue_ids).isEmpty with
      | true => rfl
      | false => cases hm : (pyLower cfg.connectionMethod == "connector") <;> simp [hm]
  · unfold get_issue_comments
    cases hq : issue_ids.isEmpty with
    | true =>
      have : issue_ids = [] := List.isEmpty_iff.mp hq
      subst this
      simp [sanitizeIds]
    | false =>
      simp only [Bool.false_eq_true, if_false, noRecsCache]
      cases hs : (sanitizeIds issue_ids).isEmpty with
      | true => rfl
      | false => cases hm : (pyLower cfg.connectionMethod == "connector") <;> simp [hm]
  · unfold get_issue_links
    cases hq : issue_ids.isEmpty with
    | true =>
      have : issue_ids = [] := List.isEmpty_iff.mp hq
      subst this
      simp [sanitizeIds]
    | false =>
      simp only [Bool.false_eq_true, if_false, noRecsCache]
      cases hs : (sanitizeIds issue_ids).isEmpty with
      | true => rfl
      | false =>
        cases hm : (pyLower cfg.connectionMethod == "connector") with
        | true =>
          cases hr : ((execQ (linksSql cfg (sanitizeIds issue_ids)) Option.none true).mapM asRecDict) with
          | error e => simp [hr]
          | ok rows => simp [hr]
        | false =>
          cases hr : ((execQ (linksSql cfg (sanitizeIds issue_ids)) tok true).mapM
              (fun row => format_snowflake_row row linksColumns)) with
          | error e => simp [hr]
          | ok rows => simp [hr]
  · intro hsan
    cases hq : issue_ids.isEmpty with
    | true =>
      have : issue_ids = [] := List.isEmpty_iff.mp hq
      subst this
      exact ⟨rfl, rfl, rfl⟩
    | false =>
      refine ⟨?_, ?_, ?_⟩
      · unfold get_issue_labels
        simp [hq, noLabelsCache, hsan]
      · unfold get_issue_comments
        simp [hq, noRecsCache, hsan]
      · unfold get_issue_links
        simp [hq, noRecsCache, hsan]

end JiraSnow

namespace JiraSnow

/-- C6 witness: a mixed id list keeps only the numeric ids in the issued
SQL; an all-invalid list issues nothing and returns the empty dict. -/
theorem subqueries_discard_nonnumeric_ids_witness :
    sanitizeIds ["12", "1x", "", "45"] = ["12", "45"]
    ∧ (get_issue_labels cfgWithToken (fun _ _ _ => []) noLabelsCache
        ["12", "1x", "", "45"] Option.none true).2 = [labelsSql cfgWithToken ["12", "45"]]
    ∧ (get_issue_comments cfgWithToken (fun _ _ _ => []) noRecsCache
        ["12", "1x", "", "45"] Option.none true).2 = [commentsSql cfgWithToken ["12", "45"]]
    ∧ get_issue_links cfgWithToken (fun _ _ _ => []) noRecsCache
        ["ab"] Option.none true = ([], []) :=
  ⟨by rfl,
   ((subqueries_discard_nonnumeric_ids cfgWithToken (fun _ _ _ => [])
      ["12", "1x", "", "45"] Option.none).2.1).trans (by rfl),
   ((subqueries_discard_nonnumeric_ids cfgWithToken (fun _ _ _ => [])
      ["12", "1x", "", "45"] Option.none).2.2.1).trans (by rfl),
   ((subqueries_discard_nonnumeric_ids cfgWithToken (fun _ _ _ => [])
      ["ab"] Option.none).2.2.2.2 (by rfl)).2.2⟩

end JiraSnow

namespace JiraSnow

/-- The entry list attached to one id in a links dict. -/
def recsOf (m : RecsDict) (k : String) : List RecDict :=
  match m with
  | [] => []
  | (k0, vs) :: rest => if k0 == k then vs else recsOf rest k

/-- Is the entry tagged with the given relationship direction? -/
def relTagIs (tag : String) (entry : RecDict) : Bool :=
  match rLook entry "relationship" with
  | Option.some (PyVal.str s) => s == tag
  | _ => false

/-- Claim C7 as amended (to link rows whose two endpoint ids differ): one
link row appends the `outward`-tagged entry (described by the `OUTWARD`
text, pointing at the destination) to the source id and the
`inward`-tagged entry (described by the `INWARD` text, pointing at the
source) to the destination id — each only when that id is a member of the
requested sanitized set, so an endpoint outside the batch gets no entry.
For a self-link (source = destination) the member id instead receives two
`outward` entries, see the counterexample. -/
theorem link_rows_produce_directed_entries (row_dict : RecDict)
    (sanitized_ids : List String) (links_data : RecsDict)
    (hsd : pyStr (rGet row_dict "SOURCE") ≠ pyStr (rGet row_dict "DESTINATION")) :
    process_links_rows [row_dict] sanitized_ids links_data =
      (let source_id := pyStr (rGet row_dict "SOURCE")
       let destination_id := pyStr (rGet row_dict "DESTINATION")
       let m1 := if sanitized_ids.contains source_id then
           dictAppend links_data source_id (outwardEntry row_dict) else links_data
       if sanitized_ids.contains destination_id then
         dictAppend m1 destination_id (inwardEntry row_dict) else m1) := by
  unfold process_links_rows processLinkRow linkEndpointStep
  have hself : (pyStr (rGet row_dict "SOURCE") == pyStr (rGet row_dict "SOURCE")) = true := by
    simp
  have hother : (pyStr (rGet row_dict "DESTINATION") == pyStr (rGet row_dict "SOURCE")) = false := by
    simp
    exact fun h => hsd h.symm
  simp only [List.foldl_cons, List.foldl_nil, hself, hother, if_true, Bool.false_eq_true,
    if_false]

/-- Counterexample to claim C7 as stated: a self-link row (`SOURCE` =
`DESTINATION` = 1) with both endpoints inside the requested set produces
two entries on id 1, both tagged `outward` — no `inward` entry with the
source's description text is materialized, though the claim promises one
attached to the destination id. -/
theorem self_link_row_produces_no_inward_entry :
    (recsOf (process_links_rows
        [[("SOURCE", PyVal.int 1), ("DESTINATION", PyVal.int 1),
          ("INWARD", PyVal.str "is blocked by"), ("OUTWARD", PyVal.str "blocks")]]
        ["1"] []) "1").length = 2
    ∧ (recsOf (process_links_rows
        [[("SOURCE", PyVal.int 1), ("DESTINATION", PyVal.int 1),
          ("INWARD", PyVal.str "is blocked by"), ("OUTWARD", PyVal.str "blocks")]]
        ["1"] []) "1").all (relTagIs "outward") = true
    ∧ (recsOf (process_links_rows
        [[("SOURCE", PyVal.int 1), ("DESTINATION", PyVal.int 1),
          ("INWARD", PyVal.str "is blocked by"), ("OUTWARD", PyVal.str "blocks")]]
        ["1"] []) "1").any (relTagIs "inward") = false := by
  refine ⟨by rfl, by rfl, by rfl⟩

/-- C7 amended witness: a two-endpoint row with source 1 and destination 2,
requested set `{1, 3}`: id 1 gets the outward entry, the out-of-batch id 2
gets nothing, id 3 is untouched. -/
theorem link_rows_produce_directed_entries_witness :
    pyStr (rGet [("SOURCE", PyVal.int 1), ("DESTINATION", PyVal.int 2),
        ("INWARD", PyVal.str "is blocked by"), ("OUTWARD", PyVal.str "blocks")] "SOURCE") ≠
      pyStr (rGet [("SOURCE", PyVal.int 1), ("DESTINATION", PyVal.int 2),
        ("INWARD", PyVal.str "is blocked by"), ("OUTWARD", PyVal.str "blocks")] "DESTINATION")
    ∧ process_links_rows
        [[("SOURCE", PyVal.int 1), ("DESTINATION", PyVal.int 2),
          ("INWARD", PyVal.str "is blocked by"), ("OUTWARD", PyVal.str "blocks")]]
        ["1", "3"] [] =
      [("1", [outwardEntry [("SOURCE", PyVal.int 1), ("DESTINATION", PyVal.int 2),
        ("INWARD", PyVal.str "is blocked by"), ("OUTWARD", PyVal.str "blocks")]])] :=
  ⟨by decide,
   (link_rows_produce_directed_entries
      [("SOURCE", PyVal.int 1), ("DESTINATION", PyVal.int 2),
       ("INWARD", PyVal.str "is blocked by"), ("OUTWARD", PyVal.str "blocks")]
      ["1", "3"] [] (by decide)).trans (by rfl)⟩

end JiraSnow

namespace JiraSnow

/-- Counterexample to claim C9: the input `"inf"` is one the decoder cannot
turn into an ISO instant, yet `parse_snowflake_timestamp` does not return it
unchanged — `float("inf")` succeeds, `datetime.fromtimestamp(inf, utc)`
raises `OverflowError`, and the `except (ValueError, TypeError)` clause does
not catch it, so the exception propagates to the caller. -/
theorem timestamp_decoder_raises_on_infinite_input :
    parse_snowflake_timestamp "inf" = Except.error PyErr.overflowError := by rfl

/-- Claim C9 as amended: the decoder parses a seconds-since-epoch float
optionally followed by a whitespace-separated integer minute offset into an
ISO-8601 instant with the offset applied — in particular the spec example
evaluates to `2025-07-30T05:38:53.658000+00:00` — and an input whose
processing fails with a `ValueError` or `TypeError` (any non-numeric text;
NaN) is returned unchanged; inputs overflowing the datetime or timedelta
range (infinite floats, astronomic offsets) instead raise `OverflowError`,
see the counterexample. -/
theorem timestamp_decoder_example_and_passthrough :
    parse_snowflake_timestamp "1753767533.658000000 1440" =
      Except.ok "2025-07-30T05:38:53.658000+00:00"
    ∧ (∀ (s : String) (e : PyErr), parse_ts_body s = Except.error e →
        e = PyErr.valueError ∨ e = PyErr.typeError →
        parse_snowflake_timestamp s = Except.ok s) := by
  constructor
  · rfl
  · intro s e hbody hcaught
    unfold parse_snowflake_timestamp
    cases hse : (s == "") with
    | true => rfl
    | false =>
      rw [hbody]
      rcases hcaught with h | h <;> subst h <;> rfl

/-- C9 witness: non-numeric text fails the float parse with `ValueError`
and is passed through unchanged. -/
theorem timestamp_decoder_example_and_passthrough_witness :
    parse_ts_body "not a timestamp" = Except.error PyErr.valueError
    ∧ parse_snowflake_timestamp "not a timestamp" = Except.ok "not a timestamp" :=
  ⟨by rfl,
   timestamp_decoder_example_and_passthrough.2 "not a timestamp" PyErr.valueError
     (by rfl) (Or.inl rfl)⟩

/-- Claim C10: a non-string value is passed through `str()` verbatim —
`sanitize_sql_value` applies its quote-doubling only in the
`isinstance(value, str)` branch, so whatever single quotes the stringified
form of a non-string contains are left untouched. -/
theorem sanitize_passes_nonstrings_verbatim (value : PyVal)
    (hv : isStr value = false) :
    sanitize_sql_value value = pyStr value ∧
    (∀ s : String, sanitize_sql_value (PyVal.str s) = replaceChar s sqChar (sq ++ sq)) := by
  refine ⟨?_, fun s => rfl⟩
  cases value with
  | str s => simp [isStr] at hv
  | none => rfl
  | bool b => rfl
  | int n => rfl
  | list xs => rfl
  | dict fs => rfl

/-- C10 witness: a list containing a quoted string stringifies with a
single quote that stays undoubled. -/
theorem sanitize_passes_nonstrings_verbatim_witness :
    isStr (pvList [PyVal.str ("a" ++ sq ++ "b")]) = false
    ∧ sanitize_sql_value (pvList [PyVal.str ("a" ++ sq ++ "b")]) =
        pyStr (pvList [PyVal.str ("a" ++ sq ++ "b")])
    ∧ pyStr (pvList [PyVal.str ("a" ++ sq ++ "b")]) =
        "[" ++ dq ++ "a" ++ sq ++ "b" ++ dq ++ "]" :=
  ⟨rfl,
   (sanitize_passes_nonstrings_verbatim (pvList [PyVal.str ("a" ++ sq ++ "b")]) rfl).1,
   by decide⟩

end JiraSnow
